import Mathlib

/-!
Verification of the `graphiti` OpenAI-compatible LLM client
(`graphiti_core/llm_client/openai_compatible_client.py`) and of the episode
retrieval operation (`graphiti_core/utils/maintenance/graph_data_operations.py`),
as a shallow embedding in Lean 4.

The transport (the `AsyncOpenAI` chat-completions call) is external to the
repository; it is modelled as a stream of attempt outcomes, one per
invocation.  Python's `json.loads` is modelled as an arbitrary parse function
`String → Option Json` (a parameter), so every theorem holds for every
possible decoder.
-/

namespace Graphiti

/-- A conversation message (`graphiti_core/prompts/models.Message`): a role
and a content string. -/
structure Message where
  role : String
  content : String
deriving Repr, DecidableEq

/-- Modelled from the spec: the Message Sanitizer `LLMClient._clean_input`
(defined in `llm_client/client.py`, which is not under `src/`).  The spec
describes it as a pure whitespace/control-character normalization; it is
modelled as removal of ASCII control characters other than newline, carriage
return and tab. -/
def cleanInput (s : String) : String :=
  String.mk (s.data.filter (fun c => 32 ≤ c.toNat || c = '\n' || c = '\r' || c = '\t'))

/-- The in-place cleaning `m.content = self._clean_input(m.content)` applied
to every message of the conversation at the start of `_generate_response`. -/
def sanitizeMessages (ms : List Message) : List Message :=
  ms.map (fun m => { m with content := cleanInput m.content })

/-- One entry of the outbound `messages` list
(`ChatCompletionMessageParam`). -/
structure OpenAIMessage where
  role : String
  content : String
deriving Repr, DecidableEq

/-- The role-filtering loop of `_generate_response`: a message is forwarded
iff its role is `user` or `system`; anything else is silently dropped.
The input list is assumed already sanitized (the Python loop cleans each
message just before the role test; `sanitizeMessages` models that pass). -/
def filterRoles : List Message → List OpenAIMessage
  | [] => []
  | m :: rest =>
    if m.role = "user" then ⟨"user", m.content⟩ :: filterRoles rest
    else if m.role = "system" then ⟨"system", m.content⟩ :: filterRoles rest
    else filterRoles rest

/-- `DEFAULT_MODEL = 'deepseek'`. -/
def DEFAULT_MODEL : String := "deepseek"

/-- Client configuration relevant to `_generate_response`: `self.model`
(`None`/empty meaning unset), `self.temperature`, `self.max_tokens`. -/
structure ClientConfig where
  model : Option String
  temperature : Float
  maxTokens : Nat

/-- Python's `self.model or DEFAULT_MODEL`: `None` and the empty string are
falsy, so both fall back to the default model name. -/
def effectiveModel (model : Option String) : String :=
  match model with
  | none => DEFAULT_MODEL
  | some s => if s = "" then DEFAULT_MODEL else s

/-- Substring test on character lists (`needle` occurs contiguously in
`hay`). -/
def containsSub (hay needle : List Char) : Bool :=
  match hay with
  | [] => needle.isEmpty
  | _ :: t => needle.isPrefixOf hay || containsSub t needle

/-- ASCII lowercasing of one character (`str.lower` restricted to the ASCII
range, which covers every model name in play). -/
def lowerChar (c : Char) : Char :=
  if c.toNat < 65 then c
  else if 90 < c.toNat then c
  else Char.ofNat (c.toNat + 32)

/-- ASCII lowercasing of a string, modelling Python's `.lower()`. -/
def toLowerStr (s : String) : String :=
  String.mk (s.data.map lowerChar)

/-- Case-insensitive substring containment, modelling Python's
`needle in hay.lower()` (the needle `'deepseek'` is already lower case in the
source; lowering both sides is harmless and keeps the test symmetric). -/
def stringContainsCI (hay needle : String) : Bool :=
  containsSub (toLowerStr hay).data (toLowerStr needle).data

/-- `is_deepseek = 'deepseek' in (self.model or DEFAULT_MODEL).lower()`. -/
def isDeepseek (model : Option String) : Bool :=
  stringContainsCI (effectiveModel model) "deepseek"

/-- The `completion_params` dict passed to
`self.client.chat.completions.create`. -/
structure CompletionParams where
  model : String
  messages : List OpenAIMessage
  temperature : Float
  maxTokens : Nat

/-- A JSON value, the possible result of a successful `json.loads`. -/
inductive Json where
  | obj (fields : List (String × Json))
  | arr (items : List Json)
  | str (s : String)
  | num (n : Int)
  | bool (b : Bool)
  | null
deriving Repr

/-- `response.choices[0].message`: role, content text, and the remaining
provider metadata fields of the `model_dump()` record. -/
structure ProviderMessage where
  role : String
  content : String
  metadata : List (String × String)
deriving Repr, DecidableEq

/-- The three shapes `_generate_response` can return on success: the
JSON-parsed mapping (manual-decode path, parse succeeded), the single-field
`{'content': raw}` wrapper (manual-decode path, parse failed), or the full
`message.model_dump()` record (every other case). -/
inductive NormalizedResponse where
  | parsed (v : Json)
  | wrapped (content : String)
  | fullRecord (msg : ProviderMessage)
deriving Repr

/-- The error classes distinguished by the `except` clauses of
`generate_response`: graphiti's `RateLimitError` and `RefusalError`, the
transport-level `openai.APITimeoutError` / `openai.APIConnectionError` /
`openai.InternalServerError`, and any other exception (application-level),
carried with its class name and message. -/
inductive Err where
  | rateLimit (msg : String)
  | refusal (msg : String)
  | apiTimeout (msg : String)
  | apiConnection (msg : String)
  | internalServer (msg : String)
  | other (cls : String) (msg : String)
deriving Repr, DecidableEq

/-- Whether an error hits one of the two re-raise-immediately `except`
clauses (rate-limited / refused / transport-level); only `other`
(application-level) reaches the retry branch. -/
def isNonRetryable : Err → Bool
  | .rateLimit _ => true
  | .refusal _ => true
  | .apiTimeout _ => true
  | .apiConnection _ => true
  | .internalServer _ => true
  | .other _ _ => false

/-- `e.__class__.__name__`. -/
def errClassName : Err → String
  | .rateLimit _ => "RateLimitError"
  | .refusal _ => "RefusalError"
  | .apiTimeout _ => "APITimeoutError"
  | .apiConnection _ => "APIConnectionError"
  | .internalServer _ => "InternalServerError"
  | .other cls _ => cls

/-- `str(e)`. -/
def errMsg : Err → String
  | .rateLimit m => m
  | .refusal m => m
  | .apiTimeout m => m
  | .apiConnection m => m
  | .internalServer m => m
  | .other _ m => m

/-- The synthesized corrective feedback message (`error_message` in
`generate_response`): role `user`, content describing the error. -/
def correctiveMessage (e : Err) : Message :=
  { role := "user",
    content :=
      "The previous response attempt was invalid. Error type: " ++ errClassName e ++
      ". Error details: " ++ errMsg e ++
      ". Please try again with a valid response, ensuring the output matches " ++
      "the expected format and constraints." }

/-- The generic error of the defensive fallback
(`Exception('Max retries exceeded with no specific error')`). -/
def genericExhausted : Err :=
  .other "Exception" "Max retries exceeded with no specific error"

/-- Outcome of one transport invocation: either a completion (the first
choice's message) or a raised error. -/
inductive AttemptOutcome where
  | success (pm : ProviderMessage)
  | failure (e : Err)

/-- The response-normalization tail of `_generate_response`: on the
manual-decode path (`is_deepseek and response_model`) try `json.loads`,
returning the parsed value or the `{'content': raw}` wrapper; otherwise
return the full message record. -/
def normalizeResponse (jsonLoads : String → Option Json) (model : Option String)
    (responseModel : Bool) (pm : ProviderMessage) : NormalizedResponse :=
  if isDeepseek model && responseModel then
    match jsonLoads pm.content with
    | some v => .parsed v
    | none => .wrapped pm.content
  else .fullRecord pm

/-- One call of `_generate_response`: sanitize the conversation in place,
build the outbound request from the `user`/`system` messages, invoke the
transport (the given outcome), and normalize a successful completion.
Returns the conversation as left by the call (the caller's list, contents
cleaned), the request that was built, and the result. -/
def _generate_response (jsonLoads : String → Option Json) (cfg : ClientConfig)
    (responseModel : Bool) (outcome : AttemptOutcome) (msgs : List Message) :
    List Message × CompletionParams × Except Err NormalizedResponse :=
  let cleaned := sanitizeMessages msgs
  let params : CompletionParams :=
    { model := effectiveModel cfg.model
      messages := filterRoles cleaned
      temperature := cfg.temperature
      maxTokens := cfg.maxTokens }
  match outcome with
  | .failure e => (cleaned, params, .error e)
  | .success pm => (cleaned, params, .ok (normalizeResponse jsonLoads cfg.model responseModel pm))

/-- `MAX_RETRIES: ClassVar[int] = 2`. -/
def MAX_RETRIES : Nat := 2

/-- Result of a `generate_response` run: the conversation list as the loop
leaves it, the returned value or raised error, the number of transport
invocations performed, and whether the defensive fallback `raise` after the
loop was executed. -/
structure LoopResult where
  finalMessages : List Message
  result : Except Err NormalizedResponse
  transportCalls : Nat
  usedFallback : Bool
deriving Repr

/-- The `while retry_count <= MAX_RETRIES` loop of `generate_response`.
`fuel` is only a structural-termination bound (the loop body increments
`retryCount` on every continuing iteration, so any `fuel` with
`retryCount + fuel > MAX_RETRIES + 1` is enough to reproduce the loop
exactly); both the fuel-exhausted branch and the false-condition branch are
the post-loop defensive `raise last_error or Exception(...)`.
Iteration with counter value `retryCount` consumes `outcomes retryCount`. -/
def runLoop (jsonLoads : String → Option Json) (cfg : ClientConfig)
    (responseModel : Bool) (outcomes : Nat → AttemptOutcome) :
    Nat → List Message → Nat → Option Err → LoopResult
  | 0, msgs, _, lastError =>
    ⟨msgs, .error (lastError.getD genericExhausted), 0, true⟩
  | fuel + 1, msgs, retryCount, lastError =>
    if retryCount ≤ MAX_RETRIES then
      match _generate_response jsonLoads cfg responseModel (outcomes retryCount) msgs with
      | (cleaned, _, .ok resp) => ⟨cleaned, .ok resp, 1, false⟩
      | (cleaned, _, .error e) =>
        if isNonRetryable e then ⟨cleaned, .error e, 1, false⟩
        else if MAX_RETRIES ≤ retryCount then ⟨cleaned, .error e, 1, false⟩
        else
          let r := runLoop jsonLoads cfg responseModel outcomes fuel
            (cleaned ++ [correctiveMessage e]) (retryCount + 1) (some e)
          ⟨r.finalMessages, r.result, r.transportCalls + 1, r.usedFallback⟩
    else ⟨msgs, .error (lastError.getD genericExhausted), 0, true⟩

/-- `generate_response`: run the retry loop from `retry_count = 0`,
`last_error = None`. -/
def generate_response (jsonLoads : String → Option Json) (cfg : ClientConfig)
    (responseModel : Bool) (outcomes : Nat → AttemptOutcome)
    (messages : List Message) : LoopResult :=
  runLoop jsonLoads cfg responseModel outcomes (MAX_RETRIES + 2) messages 0 none

/-! ## Episode retrieval (`graph_data_operations.retrieve_episodes`) -/

/-- An episodic node as read back by `retrieve_episodes`; timestamps are
modelled as integers (`created_at`, `valid_at`). -/
structure EpisodicNode where
  uuid : String
  name : String
  content : String
  sourceDescription : String
  source : String
  createdAt : Int
  validAt : Int
deriving Repr, DecidableEq

/-- Insert an episode into a list kept in descending `created_at` order
(the `ORDER BY e.created_at DESC` of the Cypher query). -/
def insertByCreatedDesc (e : EpisodicNode) : List EpisodicNode → List EpisodicNode
  | [] => [e]
  | x :: xs =>
    if x.createdAt ≤ e.createdAt then e :: x :: xs
    else x :: insertByCreatedDesc e xs

/-- Sort a list of episodes by descending `created_at` (insertion sort; the
database's tie order is unspecified, any descending order is a faithful
model of `ORDER BY e.created_at DESC`). -/
def sortByCreatedDesc : List EpisodicNode → List EpisodicNode
  | [] => []
  | x :: xs => insertByCreatedDesc x (sortByCreatedDesc xs)

/-- `retrieve_episodes(driver, reference_time, last_n)` over the stored set
of episodic nodes `db`: the Cypher query keeps the episodes with
`valid_at <= reference_time`, orders them by `created_at` descending, takes
the first `last_n`, and the Python wrapper reverses the rows
(`list(reversed(episodes))`, "Return in chronological order"). -/
def retrieve_episodes (db : List EpisodicNode) (referenceTime : Int)
    (lastN : Nat) : List EpisodicNode :=
  (((sortByCreatedDesc (db.filter (fun e => e.validAt ≤ referenceTime))).take lastN)).reverse

/-! ## Helper lemmas about the client embedding -/

theorem cleanInput_idem (s : String) : cleanInput (cleanInput s) = cleanInput s := by
  simp [cleanInput, List.filter_filter]

theorem sanitizeMessages_length (ms : List Message) :
    (sanitizeMessages ms).length = ms.length := by
  simp [sanitizeMessages]

theorem sanitizeMessages_append (a b : List Message) :
    sanitizeMessages (a ++ b) = sanitizeMessages a ++ sanitizeMessages b := by
  simp [sanitizeMessages]

theorem sanitizeMessages_idem (ms : List Message) :
    sanitizeMessages (sanitizeMessages ms) = sanitizeMessages ms := by
  simp [sanitizeMessages, Function.comp, cleanInput_idem]

theorem sanitizeMessages_roles (ms : List Message) :
    (sanitizeMessages ms).map Message.role = ms.map Message.role := by
  simp [sanitizeMessages]

theorem runLoop_step_success (jl : String → Option Json) (cfg : ClientConfig)
    (rm : Bool) (outc : Nat → AttemptOutcome) (fuel : Nat) (msgs : List Message)
    (rc : Nat) (le : Option Err) (pm : ProviderMessage)
    (h : outc rc = .success pm) (hrc : rc ≤ MAX_RETRIES) :
    runLoop jl cfg rm outc (fuel + 1) msgs rc le =
      ⟨sanitizeMessages msgs, .ok (normalizeResponse jl cfg.model rm pm), 1, false⟩ := by
  simp [runLoop, hrc, _generate_response, h]

theorem runLoop_step_nonretryable (jl : String → Option Json) (cfg : ClientConfig)
    (rm : Bool) (outc : Nat → AttemptOutcome) (fuel : Nat) (msgs : List Message)
    (rc : Nat) (le : Option Err) (e : Err)
    (h : outc rc = .failure e) (hnr : isNonRetryable e = true) (hrc : rc ≤ MAX_RETRIES) :
    runLoop jl cfg rm outc (fuel + 1) msgs rc le =
      ⟨sanitizeMessages msgs, .error e, 1, false⟩ := by
  simp [runLoop, hrc, _generate_response, h, hnr]

theorem runLoop_step_exhausted (jl : String → Option Json) (cfg : ClientConfig)
    (rm : Bool) (outc : Nat → AttemptOutcome) (fuel : Nat) (msgs : List Message)
    (rc : Nat) (le : Option Err) (e : Err)
    (h : outc rc = .failure e) (hnr : isNonRetryable e = false) (hrc : rc = MAX_RETRIES) :
    runLoop jl cfg rm outc (fuel + 1) msgs rc le =
      ⟨sanitizeMessages msgs, .error e, 1, false⟩ := by
  subst hrc
  simp [runLoop, _generate_response, h, hnr]

theorem runLoop_step_retry (jl : String → Option Json) (cfg : ClientConfig)
    (rm : Bool) (outc : Nat → AttemptOutcome) (fuel : Nat) (msgs : List Message)
    (rc : Nat) (le : Option Err) (e : Err)
    (h : outc rc = .failure e) (hnr : isNonRetryable e = false) (hrc : rc < MAX_RETRIES) :
    runLoop jl cfg rm outc (fuel + 1) msgs rc le =
      (let r := runLoop jl cfg rm outc fuel
          (sanitizeMessages msgs ++ [correctiveMessage e]) (rc + 1) (some e)
       ⟨r.finalMessages, r.result, r.transportCalls + 1, r.usedFallback⟩) := by
  have h1 : rc ≤ MAX_RETRIES := Nat.le_of_lt hrc
  have h2 : ¬ (MAX_RETRIES ≤ rc) := Nat.not_le_of_lt hrc
  simp [runLoop, h1, _generate_response, h, hnr, h2]

theorem runLoop_calls_le (jl : String → Option Json) (cfg : ClientConfig)
    (rm : Bool) (outc : Nat → AttemptOutcome) :
    ∀ (fuel : Nat) (msgs : List Message) (rc : Nat) (le : Option Err),
      (runLoop jl cfg rm outc fuel msgs rc le).transportCalls ≤ MAX_RETRIES + 1 - rc := by
  intro fuel
  induction fuel with
  | zero =>
    intro msgs rc le
    simp [runLoop]
  | succ f ih =>
    intro msgs rc le
    by_cases hrc : rc ≤ MAX_RETRIES
    · cases houtc : outc rc with
      | success pm =>
        rw [runLoop_step_success jl cfg rm outc f msgs rc le pm houtc hrc]
        dsimp only
        omega
      | failure e =>
        by_cases hnr : isNonRetryable e
        · rw [runLoop_step_nonretryable jl cfg rm outc f msgs rc le e houtc hnr hrc]
          dsimp only
          omega
        · by_cases hex : rc = MAX_RETRIES
          · rw [runLoop_step_exhausted jl cfg rm outc f msgs rc le e houtc
              (Bool.not_eq_true _ ▸ hnr) hex]
            dsimp only
            omega
          · have hlt : rc < MAX_RETRIES := Nat.lt_of_le_of_ne hrc hex
            rw [runLoop_step_retry jl cfg rm outc f msgs rc le e houtc
              (Bool.not_eq_true _ ▸ hnr) hlt]
            have := ih (sanitizeMessages msgs ++ [correctiveMessage e]) (rc + 1) (some e)
            dsimp only
            omega
    · simp [runLoop, hrc]

theorem runLoop_no_fallback (jl : String → Option Json) (cfg : ClientConfig)
    (rm : Bool) (outc : Nat → AttemptOutcome) :
    ∀ (fuel : Nat) (msgs : List Message) (rc : Nat) (le : Option Err),
      rc ≤ MAX_RETRIES → MAX_RETRIES + 2 ≤ rc + fuel →
      (runLoop jl cfg rm outc fuel msgs rc le).usedFallback = false := by
  intro fuel
  induction fuel with
  | zero =>
    intro msgs rc le hrc hfuel
    omega
  | succ f ih =>
    intro msgs rc le hrc hfuel
    cases houtc : outc rc with
    | success pm =>
      rw [runLoop_step_success jl cfg rm outc f msgs rc le pm houtc hrc]
    | failure e =>
      by_cases hnr : isNonRetryable e
      · rw [runLoop_step_nonretryable jl cfg rm outc f msgs rc le e houtc hnr hrc]
      · by_cases hex : rc = MAX_RETRIES
        · rw [runLoop_step_exhausted jl cfg rm outc f msgs rc le e houtc
            (Bool.not_eq_true _ ▸ hnr) hex]
        · have hlt : rc < MAX_RETRIES := Nat.lt_of_le_of_ne hrc hex
          rw [runLoop_step_retry jl cfg rm outc f msgs rc le e houtc
            (Bool.not_eq_true _ ▸ hnr) hlt]
          exact ih (sanitizeMessages msgs ++ [correctiveMessage e]) (rc + 1) (some e)
            hlt (by omega)

/-! ## Claim theorems: retry orchestration -/

/-- C1: for every conversation and every sequence of outcomes from the
underlying transport, `generate_response` invokes the transport at most
`MAX_RETRIES + 1` times, and with `MAX_RETRIES = 2` this is at most three
total attempts; the retry loop always terminates (it is a total function). -/
theorem c1_transport_calls_bounded (jl : String → Option Json) (cfg : ClientConfig)
    (rm : Bool) (outc : Nat → AttemptOutcome) (msgs : List Message) :
    (generate_response jl cfg rm outc msgs).transportCalls ≤ MAX_RETRIES + 1 ∧
    MAX_RETRIES = 2 ∧
    (generate_response jl cfg rm outc msgs).transportCalls ≤ 3 := by
  have h := runLoop_calls_le jl cfg rm outc (MAX_RETRIES + 2) msgs 0 none
  rw [generate_response]
  refine ⟨by omega, rfl, by simp [MAX_RETRIES] at h ⊢; omega⟩

/-- C2: if an attempt raises a `RateLimitError`, a `RefusalError`, or a
transport-level error (timeout, connection failure, internal server error),
`generate_response` propagates that exact error immediately, with zero
retries performed and no further transport invocations (the conversation
gains no corrective message; it is only left with sanitized contents). -/
theorem c2_nonretryable_propagates_immediately (jl : String → Option Json)
    (cfg : ClientConfig) (rm : Bool) (outc : Nat → AttemptOutcome)
    (msgs : List Message) (e : Err)
    (hout : outc 0 = .failure e) (hnr : isNonRetryable e = true) :
    (generate_response jl cfg rm outc msgs).result = .error e ∧
    (generate_response jl cfg rm outc msgs).transportCalls = 1 ∧
    (generate_response jl cfg rm outc msgs).finalMessages = sanitizeMessages msgs := by
  have h4 : MAX_RETRIES + 2 = 3 + 1 := rfl
  rw [generate_response, h4,
    runLoop_step_nonretryable jl cfg rm outc 3 msgs 0 none e hout hnr (by simp [MAX_RETRIES])]
  exact ⟨rfl, rfl, rfl⟩

/-- Witness for C2 at a concrete input: a rate-limit error on the first
attempt surfaces unchanged after exactly one transport invocation. -/
theorem c2_witness :
    (generate_response (fun _ => none) ⟨some "gpt-4", 0.5, 100⟩ true
        (fun _ => .failure (.rateLimit "quota")) [⟨"user", "hi"⟩]).result =
      .error (.rateLimit "quota") ∧
    (generate_response (fun _ => none) ⟨some "gpt-4", 0.5, 100⟩ true
        (fun _ => .failure (.rateLimit "quota")) [⟨"user", "hi"⟩]).transportCalls = 1 :=
  have h := c2_nonretryable_propagates_immediately (fun _ => none)
    ⟨some "gpt-4", 0.5, 100⟩ true (fun _ => .failure (.rateLimit "quota"))
    [⟨"user", "hi"⟩] (.rateLimit "quota") rfl rfl
  ⟨h.1, h.2.1⟩

/-- C5: when application-level errors occur on every attempt and the retry
bound is exhausted, `generate_response` raises the last observed error
itself, preserving its class and message, not a wrapped or generic error. -/
theorem c5_exhausted_raises_last_error (jl : String → Option Json)
    (cfg : ClientConfig) (rm : Bool) (outc : Nat → AttemptOutcome)
    (msgs : List Message) (c0 m0 c1 m1 c2 m2 : String)
    (h0 : outc 0 = .failure (.other c0 m0))
    (h1 : outc 1 = .failure (.other c1 m1))
    (h2 : outc 2 = .failure (.other c2 m2)) :
    (generate_response jl cfg rm outc msgs).result = .error (.other c2 m2) ∧
    (generate_response jl cfg rm outc msgs).transportCalls = MAX_RETRIES + 1 := by
  have h4 : MAX_RETRIES + 2 = 3 + 1 := rfl
  have h3 : (3 : Nat) = 2 + 1 := rfl
  have h2' : (2 : Nat) = 1 + 1 := rfl
  rw [generate_response, h4,
    runLoop_step_retry jl cfg rm outc 3 msgs 0 none (.other c0 m0) h0 rfl
      (by simp [MAX_RETRIES])]
  dsimp only
  rw [h3, runLoop_step_retry jl cfg rm outc 2 _ 1 (some (.other c0 m0)) (.other c1 m1) h1 rfl
      (by simp [MAX_RETRIES])]
  dsimp only
  rw [h2', runLoop_step_exhausted jl cfg rm outc 1 _ 2 (some (.other c1 m1)) (.other c2 m2) h2 rfl
      (by simp [MAX_RETRIES])]
  exact ⟨rfl, rfl⟩

/-- Witness for C5 at a concrete input: three consecutive validation errors
exhaust the bound and the third error is raised unchanged. -/
theorem c5_witness :
    (generate_response (fun _ => none) ⟨some "gpt-4", 0.5, 100⟩ true
        (fun i => .failure (.other "ValidationError" (toString i))) [⟨"user", "hi"⟩]).result =
      .error (.other "ValidationError" "2") ∧
    (generate_response (fun _ => none) ⟨some "gpt-4", 0.5, 100⟩ true
        (fun i => .failure (.other "ValidationError" (toString i))) [⟨"user", "hi"⟩]).transportCalls =
      MAX_RETRIES + 1 :=
  c5_exhausted_raises_last_error (fun _ => none) ⟨some "gpt-4", 0.5, 100⟩ true
    (fun i => .failure (.other "ValidationError" (toString i))) [⟨"user", "hi"⟩]
    "ValidationError" "0" "ValidationError" "1" "ValidationError" "2" rfl rfl rfl

/-- C8: the defensive fallback after the retry loop is unreachable: in every
execution of `generate_response`, each loop iteration either returns a
response or raises an error before the loop condition can become false, so
the final generic exhaustion raise is never executed. -/
theorem c8_defensive_fallback_unreachable (jl : String → Option Json)
    (cfg : ClientConfig) (rm : Bool) (outc : Nat → AttemptOutcome)
    (msgs : List Message) :
    (generate_response jl cfg rm outc msgs).usedFallback = false :=
  runLoop_no_fallback jl cfg rm outc (MAX_RETRIES + 2) msgs 0 none
    (Nat.zero_le _) (by omega)

theorem take_sanitize_append (msgs extra : List Message) :
    (sanitizeMessages msgs ++ extra).take msgs.length = sanitizeMessages msgs := by
  rw [← sanitizeMessages_length msgs, List.take_left]

theorem drop_sanitize_append (msgs extra : List Message) :
    (sanitizeMessages msgs ++ extra).drop msgs.length = extra := by
  rw [← sanitizeMessages_length msgs, List.drop_left]

/-- C3: given `N` consecutive application-level errors with
`N ≤ MAX_RETRIES` (`errs` lists them in order) followed by a success, the
conversation before the `(N+1)`-th attempt has gained exactly one corrective
message, of role `user`, per retry: the final conversation has length
initial + `N`, its first `|initial|` entries are the caller's messages in
their original order (contents sanitized, never truncated or reordered), and
every appended entry has role `user`. -/
theorem c3_one_user_message_appended_per_retry (jl : String → Option Json)
    (cfg : ClientConfig) (rm : Bool) (outc : Nat → AttemptOutcome)
    (msgs : List Message) (errs : List Err) (pm : ProviderMessage)
    (hlen : errs.length ≤ MAX_RETRIES)
    (happ : ∀ e ∈ errs, isNonRetryable e = false)
    (hout : ∀ i, (hi : i < errs.length) → outc i = .failure (errs.get ⟨i, hi⟩))
    (hsucc : outc errs.length = .success pm) :
    (generate_response jl cfg rm outc msgs).finalMessages.length = msgs.length + errs.length ∧
    (generate_response jl cfg rm outc msgs).finalMessages.take msgs.length =
      sanitizeMessages msgs ∧
    ∀ m ∈ (generate_response jl cfg rm outc msgs).finalMessages.drop msgs.length,
      m.role = "user" := by
  have h4 : MAX_RETRIES + 2 = 3 + 1 := rfl
  have h3 : (3 : Nat) = 2 + 1 := rfl
  have h2' : (2 : Nat) = 1 + 1 := rfl
  rcases errs with _ | ⟨e0, errs⟩
  · have hs : outc 0 = .success pm := by simpa using hsucc
    rw [generate_response, h4,
      runLoop_step_success jl cfg rm outc 3 msgs 0 none pm hs (by simp [MAX_RETRIES])]
    refine ⟨by simp [sanitizeMessages_length], ?_, ?_⟩
    · show (sanitizeMessages msgs).take msgs.length = sanitizeMessages msgs
      rw [← sanitizeMessages_length msgs, List.take_length]
    · intro m hm
      rw [← sanitizeMessages_length msgs, List.drop_length] at hm
      simp at hm
  · rcases errs with _ | ⟨e1, errs⟩
    · have he0 : isNonRetryable e0 = false := happ e0 (by simp)
      have h0 : outc 0 = .failure e0 := by simpa using hout 0 (by simp)
      have hs : outc 1 = .success pm := by simpa using hsucc
      rw [generate_response, h4,
        runLoop_step_retry jl cfg rm outc 3 msgs 0 none e0 h0 he0 (by simp [MAX_RETRIES])]
      dsimp only
      rw [h3, runLoop_step_success jl cfg rm outc 2 _ 1 (some e0) pm hs (by simp [MAX_RETRIES])]
      dsimp only
      rw [sanitizeMessages_append, sanitizeMessages_idem]
      refine ⟨by simp [sanitizeMessages_length, sanitizeMessages], take_sanitize_append msgs _, ?_⟩
      intro m hm
      rw [drop_sanitize_append msgs _] at hm
      simp [sanitizeMessages, correctiveMessage] at hm
      rw [hm]
    · rcases errs with _ | ⟨e2, errs⟩
      · have he0 : isNonRetryable e0 = false := happ e0 (by simp)
        have he1 : isNonRetryable e1 = false := happ e1 (by simp)
        have h0 : outc 0 = .failure e0 := by simpa using hout 0 (by simp)
        have h1 : outc 1 = .failure e1 := by simpa using hout 1 (by simp)
        have hs : outc 2 = .success pm := by simpa using hsucc
        rw [generate_response, h4,
          runLoop_step_retry jl cfg rm outc 3 msgs 0 none e0 h0 he0 (by simp [MAX_RETRIES])]
        dsimp only
        rw [h3, runLoop_step_retry jl cfg rm outc 2 _ 1 (some e0) e1 h1 he1
          (by simp [MAX_RETRIES])]
        dsimp only
        rw [h2', runLoop_step_success jl cfg rm outc 1 _ 2 (some e1) pm hs
          (by simp [MAX_RETRIES])]
        dsimp only
        simp only [sanitizeMessages_append, sanitizeMessages_idem, List.append_assoc]
        refine ⟨by simp [sanitizeMessages_length, sanitizeMessages],
          take_sanitize_append msgs _, ?_⟩
        intro m hm
        rw [drop_sanitize_append msgs _] at hm
        simp [sanitizeMessages, correctiveMessage] at hm
        rcases hm with hm | hm <;> rw [hm]
      · exfalso
        simp [MAX_RETRIES] at hlen

/-- Witness for C3 at a concrete input: one validation error followed by a
success leaves a two-message conversation whose first entry is the caller's
message and whose appended entry has role `user`. -/
theorem c3_witness :
    (generate_response (fun _ => none) ⟨some "gpt-4", 0.5, 100⟩ true
        (fun i => if i = 0 then .failure (.other "ValidationError" "bad")
                  else .success ⟨"assistant", "ok", []⟩)
        [⟨"user", "hi"⟩]).finalMessages.length = 1 + 1 :=
  (c3_one_user_message_appended_per_retry (fun _ => none) ⟨some "gpt-4", 0.5, 100⟩ true
    (fun i => if i = 0 then .failure (.other "ValidationError" "bad")
              else .success ⟨"assistant", "ok", []⟩)
    [⟨"user", "hi"⟩] [.other "ValidationError" "bad"] ⟨"assistant", "ok", []⟩
    (by decide) (by decide)
    (by intro i hi
        have hz : i = 0 := Nat.lt_one_iff.mp (by simpa using hi)
        subst hz
        rfl)
    rfl).1

/-! ## Claim theorems: sanitization, request building, normalization -/

/-- C6, counterexample: the caller's messages are mutated in place.  With a
conversation whose single message contains a control character, a single
successful attempt leaves the conversation with that message's content
rewritten (same length, no message appended), so the messages supplied by
the caller are not left unmutated. -/
theorem c6_counterexample_caller_message_mutated :
    (generate_response (fun _ => none) ⟨some "gpt-4", 0.5, 100⟩ true
        (fun _ => .success ⟨"assistant", "ok", []⟩)
        [⟨"user", "a\x00b"⟩]).finalMessages = [⟨"user", "ab"⟩] ∧
    ([⟨"user", "ab"⟩] : List Message) ≠ [⟨"user", "a\x00b"⟩] ∧
    (generate_response (fun _ => none) ⟨some "gpt-4", 0.5, 100⟩ true
        (fun _ => .success ⟨"assistant", "ok", []⟩)
        [⟨"user", "a\x00b"⟩]).finalMessages.length = 1 := by
  refine ⟨?_, by decide, ?_⟩ <;>
    rw [generate_response, show MAX_RETRIES + 2 = 3 + 1 from rfl,
      runLoop_step_success _ _ _ _ 3 _ 0 none ⟨"assistant", "ok", []⟩ rfl
        (by simp [MAX_RETRIES])] <;>
    decide

/-- C6 (amended): sanitization computes a cleaned copy of each message's
content but writes it back into the caller's message: after a successful
call the conversation equals the original messages with each content
replaced by its cleaned text, with every role and position preserved, and
nothing dropped, reordered, or (on the success path) appended. -/
theorem c6_sanitization_rewrites_content_in_place (jl : String → Option Json)
    (cfg : ClientConfig) (rm : Bool) (outc : Nat → AttemptOutcome)
    (msgs : List Message) (pm : ProviderMessage)
    (hout : outc 0 = .success pm) :
    (generate_response jl cfg rm outc msgs).finalMessages =
      msgs.map (fun m => { m with content := cleanInput m.content }) ∧
    (generate_response jl cfg rm outc msgs).finalMessages.map Message.role =
      msgs.map Message.role := by
  rw [generate_response, show MAX_RETRIES + 2 = 3 + 1 from rfl,
    runLoop_step_success jl cfg rm outc 3 msgs 0 none pm hout (by simp [MAX_RETRIES])]
  exact ⟨rfl, sanitizeMessages_roles msgs⟩

/-- Witness for C6's amended theorem at a concrete input: content without
control characters is left unchanged (tab is preserved by the cleaning). -/
theorem c6_witness :
    (generate_response (fun _ => none) ⟨some "gpt-4", 0.5, 100⟩ true
        (fun _ => .success ⟨"assistant", "ok", []⟩)
        [⟨"user", "a\tb"⟩]).finalMessages = [⟨"user", "a\tb"⟩] :=
  ((c6_sanitization_rewrites_content_in_place (fun _ => none) ⟨some "gpt-4", 0.5, 100⟩ true
    (fun _ => .success ⟨"assistant", "ok", []⟩) [⟨"user", "a\tb"⟩]
    ⟨"assistant", "ok", []⟩ rfl).1).trans (by decide)

theorem filterRoles_sanitizeMessages (ms : List Message) :
    filterRoles (sanitizeMessages ms) =
      (ms.filter (fun m => m.role == "user" || m.role == "system")).map
        (fun m => OpenAIMessage.mk m.role (cleanInput m.content)) := by
  induction ms with
  | nil => rfl
  | cons m rest ih =>
    by_cases h1 : m.role = "user"
    · simp [sanitizeMessages, filterRoles, List.filter_cons, h1] at ih ⊢
      exact ih
    · by_cases h2 : m.role = "system"
      · simp [sanitizeMessages, filterRoles, List.filter_cons, h1, h2] at ih ⊢
        exact ih
      · simp [sanitizeMessages, filterRoles, List.filter_cons, h1, h2] at ih ⊢
        exact ih

/-- C7: the outbound request contains exactly the messages whose role is
`user` or `system`, in their original order (with sanitized content);
messages of any other role are silently dropped; and the request's `model`
field falls back to the default model name when the configured model name is
unset (`None` or empty). -/
theorem c7_request_roles_and_model_fallback (jl : String → Option Json)
    (cfg : ClientConfig) (rm : Bool) (outcome : AttemptOutcome)
    (msgs : List Message) :
    (_generate_response jl cfg rm outcome msgs).2.1.messages =
      (msgs.filter (fun m => m.role == "user" || m.role == "system")).map
        (fun m => OpenAIMessage.mk m.role (cleanInput m.content)) ∧
    (cfg.model = none ∨ cfg.model = some "" →
      (_generate_response jl cfg rm outcome msgs).2.1.model = DEFAULT_MODEL) := by
  constructor
  · cases outcome <;> simp [_generate_response, filterRoles_sanitizeMessages]
  · intro h
    cases outcome <;> rcases h with h | h <;> simp [_generate_response, effectiveModel, h]

/-- Witness for C7 at a concrete input: an `assistant` message is dropped,
the `user` and `system` messages are kept in order, and an unset model name
falls back to the default. -/
theorem c7_witness :
    (_generate_response (fun _ => none) ⟨none, 0.5, 100⟩ false
        (.success ⟨"assistant", "ok", []⟩)
        [⟨"user", "a"⟩, ⟨"assistant", "x"⟩, ⟨"system", "s"⟩]).2.1.messages =
      [⟨"user", "a"⟩, ⟨"system", "s"⟩] ∧
    (_generate_response (fun _ => none) ⟨none, 0.5, 100⟩ false
        (.success ⟨"assistant", "ok", []⟩)
        [⟨"user", "a"⟩, ⟨"assistant", "x"⟩, ⟨"system", "s"⟩]).2.1.model = DEFAULT_MODEL :=
  have h := c7_request_roles_and_model_fallback (fun _ => none) ⟨none, 0.5, 100⟩ false
    (.success ⟨"assistant", "ok", []⟩) [⟨"user", "a"⟩, ⟨"assistant", "x"⟩, ⟨"system", "s"⟩]
  ⟨h.1.trans (by decide), h.2 (Or.inl rfl)⟩

/-- C4, counterexample: the claim routes by the *configured* model name, but
the code routes by the configured-or-default name.  The empty configured
model name does not contain the manual-decode marker, yet with a structured
result requested and a non-JSON completion the client returns the
`{'content': raw}` wrapper, not the full message record. -/
theorem c4_counterexample_empty_model_manual_decoded :
    stringContainsCI "" "deepseek" = false ∧
    normalizeResponse (fun _ => none) (some "") true ⟨"assistant", "plain", []⟩ =
      .wrapped "plain" ∧
    NormalizedResponse.wrapped "plain" ≠
      .fullRecord ⟨"assistant", "plain", []⟩ := by
  refine ⟨by decide, rfl, ?_⟩
  intro h
  exact NormalizedResponse.noConfusion h

/-- C4 (amended): for every successful completion, if the *effective* model
name — the configured name, falling back to the default `deepseek` when the
configured name is unset or empty — contains the manual-decode marker
(case-insensitively) and the caller requested a structured result, then a
JSON-parseable completion yields the parsed mapping and a non-JSON
completion yields the single-field `{'content': raw}` wrapper; in every
other case the full message record is returned unmodified. -/
theorem c4_normalization_by_effective_model (jl : String → Option Json)
    (model : Option String) (rm : Bool) (pm : ProviderMessage) :
    ((isDeepseek model && rm) = true →
      (∀ v, jl pm.content = some v → normalizeResponse jl model rm pm = .parsed v) ∧
      (jl pm.content = none → normalizeResponse jl model rm pm = .wrapped pm.content)) ∧
    ((isDeepseek model && rm) = false →
      normalizeResponse jl model rm pm = .fullRecord pm) := by
  constructor
  · intro h
    refine ⟨fun v hv => ?_, fun hv => ?_⟩ <;> simp [normalizeResponse, h, hv]
  · intro h
    simp [normalizeResponse, h]

/-- Witness for C4's amended theorem at concrete inputs: a mixed-case
`DeepSeek` model with a parseable completion yields the parsed mapping, and
a `gpt-4` model passes the full record through. -/
theorem c4_witness :
    normalizeResponse (fun s => if s = "\x7b\x7d" then some (.obj []) else none)
        (some "DeepSeek-chat") true ⟨"assistant", "\x7b\x7d", []⟩ = .parsed (.obj []) ∧
    normalizeResponse (fun _ => none) (some "gpt-4") true ⟨"assistant", "x", []⟩ =
      .fullRecord ⟨"assistant", "x", []⟩ :=
  ⟨((c4_normalization_by_effective_model
      (fun s => if s = "\x7b\x7d" then some (.obj []) else none)
      (some "DeepSeek-chat") true ⟨"assistant", "\x7b\x7d", []⟩).1 (by decide)).1
      (.obj []) (by simp),
   (c4_normalization_by_effective_model (fun _ => none) (some "gpt-4") true
      ⟨"assistant", "x", []⟩).2 (by decide)⟩

/-- C10: when the configured model name is unset (`None` or empty), the
client substitutes the default model name `deepseek`, which contains the
manual-decode marker; hence any structured-result request is always routed
through the manual JSON-decode path (parsed mapping, or `{'content': raw}`
wrapper) and never returns the full message record. -/
theorem c10_unset_model_always_manual_decode (jl : String → Option Json)
    (model : Option String) (pm : ProviderMessage)
    (h : model = none ∨ model = some "") :
    effectiveModel model = DEFAULT_MODEL ∧
    DEFAULT_MODEL = "deepseek" ∧
    isDeepseek model = true ∧
    normalizeResponse jl model true pm =
      (match jl pm.content with
       | some v => .parsed v
       | none => .wrapped pm.content) ∧
    ∀ pm' : ProviderMessage, normalizeResponse jl model true pm ≠ .fullRecord pm' := by
  have hds : isDeepseek model = true := by
    rcases h with h | h <;> subst h <;> decide
  have heff : effectiveModel model = DEFAULT_MODEL := by
    rcases h with h | h <;> subst h <;> rfl
  refine ⟨heff, rfl, hds, by simp [normalizeResponse, hds], fun pm' => ?_⟩
  simp only [normalizeResponse, hds, Bool.and_self, if_pos rfl]
  cases jl pm.content <;> simp

/-- Witness for C10 at a concrete input: with an unset model name and a
non-JSON completion, the result is the `{'content': raw}` wrapper, not the
full message record. -/
theorem c10_witness :
    isDeepseek none = true ∧
    normalizeResponse (fun _ => none) none true ⟨"assistant", "raw", []⟩ ≠
      .fullRecord ⟨"assistant", "raw", []⟩ :=
  have h := c10_unset_model_always_manual_decode (fun _ => none) none
    ⟨"assistant", "raw", []⟩ (Or.inl rfl)
  ⟨h.2.2.1, h.2.2.2.2 ⟨"assistant", "raw", []⟩⟩

/-! ## Claim theorems: episode retrieval -/

theorem mem_insertByCreatedDesc {a e : EpisodicNode} {l : List EpisodicNode} :
    a ∈ insertByCreatedDesc e l ↔ a = e ∨ a ∈ l := by
  induction l with
  | nil => simp [insertByCreatedDesc]
  | cons x xs ih =>
    by_cases h : x.createdAt ≤ e.createdAt
    · simp [insertByCreatedDesc, h]
    · simp [insertByCreatedDesc, h, ih]
      tauto

theorem mem_sortByCreatedDesc {a : EpisodicNode} {l : List EpisodicNode} :
    a ∈ sortByCreatedDesc l ↔ a ∈ l := by
  induction l with
  | nil => simp [sortByCreatedDesc]
  | cons x xs ih => simp [sortByCreatedDesc, mem_insertByCreatedDesc, ih]

theorem pairwise_insertByCreatedDesc {e : EpisodicNode} {l : List EpisodicNode}
    (h : l.Pairwise (fun a b => b.createdAt ≤ a.createdAt)) :
    (insertByCreatedDesc e l).Pairwise (fun a b => b.createdAt ≤ a.createdAt) := by
  induction l with
  | nil => simp [insertByCreatedDesc]
  | cons x xs ih =>
    rcases List.pairwise_cons.mp h with ⟨hx, hxs⟩
    by_cases hcmp : x.createdAt ≤ e.createdAt
    · simp only [insertByCreatedDesc, if_pos hcmp]
      refine List.pairwise_cons.mpr ⟨?_, h⟩
      intro b hb
      rcases List.mem_cons.mp hb with rfl | hb
      · exact hcmp
      · exact le_trans (hx b hb) hcmp
    · simp only [insertByCreatedDesc, if_neg hcmp]
      refine List.pairwise_cons.mpr ⟨?_, ih hxs⟩
      intro b hb
      rcases mem_insertByCreatedDesc.mp hb with rfl | hb
      · exact le_of_lt (lt_of_not_le hcmp)
      · exact hx b hb

theorem pairwise_sortByCreatedDesc (l : List EpisodicNode) :
    (sortByCreatedDesc l).Pairwise (fun a b => b.createdAt ≤ a.createdAt) := by
  induction l with
  | nil => simp [sortByCreatedDesc]
  | cons x xs ih => exact pairwise_insertByCreatedDesc ih

/-- First of the two episodes of the C9 counterexample: valid earlier...
no — valid *later* (valid-at 10) but created *earlier* (created-at 1). -/
def ep1 : EpisodicNode :=
  { uuid := "u1", name := "n1", content := "c1", sourceDescription := "d1",
    source := "s1", createdAt := 1, validAt := 10 }

/-- Second episode of the C9 counterexample: valid earlier (valid-at 5) but
created later (created-at 2). -/
def ep2 : EpisodicNode :=
  { uuid := "u2", name := "n2", content := "c2", sourceDescription := "d2",
    source := "s2", createdAt := 2, validAt := 5 }

/-- C9, counterexample: the query orders by `created_at`, not by `valid_at`.
With two stored episodes with distinct valid-at timestamps, both ≤ the
reference time 100, the returned list is `[ep1, ep2]` with valid-at values
`10, 5` — not oldest-to-newest in valid time. -/
theorem c9_counterexample_not_validAt_ordered :
    ([ep1, ep2].map EpisodicNode.validAt).Pairwise (· ≠ ·) ∧
    retrieve_episodes [ep1, ep2] 100 2 = [ep1, ep2] ∧
    ¬ (retrieve_episodes [ep1, ep2] 100 2).Pairwise
        (fun a b => a.validAt ≤ b.validAt) := by
  refine ⟨by decide, by decide, ?_⟩
  intro h
  have : retrieve_episodes [ep1, ep2] 100 2 = [ep1, ep2] := by decide
  rw [this] at h
  rcases List.pairwise_cons.mp h with ⟨h1, _⟩
  have := h1 ep2 (by simp)
  simp [ep1, ep2] at this

/-- C9 (amended): for every reference time `T`, count `n`, and stored set of
episodes with distinct valid-at timestamps, `retrieve_episodes` returns at
most `n` episodes, every returned episode has valid-at ≤ `T`, and the
returned list is ordered oldest-to-newest *by creation time* (ascending
`created_at`, the reversal of the query's `ORDER BY created_at DESC`). -/
theorem c9_retrieve_episodes_spec (db : List EpisodicNode) (T : Int) (n : Nat)
    (_hdistinct : (db.map EpisodicNode.validAt).Pairwise (· ≠ ·)) :
    (retrieve_episodes db T n).length ≤ n ∧
    (∀ e ∈ retrieve_episodes db T n, e.validAt ≤ T) ∧
    (retrieve_episodes db T n).Pairwise (fun a b => a.createdAt ≤ b.createdAt) := by
  refine ⟨?_, ?_, ?_⟩
  · rw [retrieve_episodes, List.length_reverse, List.length_take]
    exact min_le_left _ _
  · intro e he
    rw [retrieve_episodes, List.mem_reverse] at he
    have h1 : e ∈ sortByCreatedDesc (db.filter (fun e => e.validAt ≤ T)) :=
      (List.take_sublist _ _).subset he
    have h2 : e ∈ db.filter (fun e => e.validAt ≤ T) := mem_sortByCreatedDesc.mp h1
    have h3 := (List.mem_filter.mp h2).2
    exact of_decide_eq_true h3
  · rw [retrieve_episodes, List.pairwise_reverse]
    exact ((pairwise_sortByCreatedDesc _).sublist (List.take_sublist _ _))

/-- Witness for C9's amended theorem at a concrete input: the two-episode
store of the counterexample satisfies the amended bound, filter and
created-at ordering. -/
theorem c9_witness :
    (retrieve_episodes [ep1, ep2] 100 2).length ≤ 2 ∧
    (∀ e ∈ retrieve_episodes [ep1, ep2] 100 2, e.validAt ≤ 100) ∧
    (retrieve_episodes [ep1, ep2] 100 2).Pairwise
      (fun a b => a.createdAt ≤ b.createdAt) :=
  c9_retrieve_episodes_spec [ep1, ep2] 100 2 (by decide)

end Graphiti
